import Mathlib

/-!
Verification of `vpc-nag`: a small audit tool that fetches a VPC inventory,
filters it to one account, and checks each VPC against a fixed
network-topology policy (non-default VPC with exactly three public and three
private subnets) in the canonical region "eu-west-1".

The Go source (`src/main.go`) is embedded shallowly below: the JSON data
model becomes Lean structures, the generic `Filter` helper becomes a
recursive list function, `checkCompliance` becomes a pure function returning
the list of violation messages, and the printing in `main` /
`reportCompliance` is embedded as functions producing the list of stdout
lines.  The fatal-error path (`check` + `log.Fatalf`) is embedded as a sum
outcome carrying the exit code and diagnostic.
-/

namespace VpcNag

/-- Embeds Go struct `PrismSubnet` (src/main.go lines 13-23). -/
structure PrismSubnet where
  availabilityZone : String
  availableIPAddressCount : Int
  capacityIPAddressCount : Int
  cidrBlock : String
  ownerID : String
  state : String
  subnetArn : String
  subnetID : String
  isPublic : Bool
  deriving Repr, DecidableEq

/-- Embeds the anonymous `Origin` struct nested in `PrismVPC.Meta`. -/
structure PrismOrigin where
  region : String
  deriving Repr, DecidableEq

/-- Embeds the anonymous `Meta` struct of `PrismVPC`. -/
structure PrismMeta where
  origin : PrismOrigin
  deriving Repr, DecidableEq

/-- Embeds Go struct `PrismVPC` (src/main.go lines 25-37).  The Go
`map[string]string` of tags is embedded as an association list. -/
structure PrismVPC where
  vpcID : String
  accountID : String
  state : String
  isDefault : Bool
  subnets : List PrismSubnet
  tags : List (String × String)
  meta : PrismMeta
  deriving Repr, DecidableEq

/-- Embeds the anonymous `Data` struct of `PrismResponse`. -/
structure PrismData where
  vpcs : List PrismVPC
  deriving Repr, DecidableEq

/-- Embeds Go struct `PrismResponse` (src/main.go lines 39-43). -/
structure PrismResponse where
  data : PrismData
  deriving Repr, DecidableEq

/-- Embeds the generic `Filter` helper (src/main.go lines 124-134): an
ordinary higher-order filter that keeps, in order, the items satisfying the
predicate. -/
def Filter {A : Type} (items : List A) (pred : A → Bool) : List A :=
  match items with
  | [] => []
  | item :: rest =>
    if pred item then item :: Filter rest pred else Filter rest pred

/-- Embeds `checkCompliance` (src/main.go lines 92-122).  Go `error` values
are embedded as their message strings; `fmt.Errorf("expected 3 ... found
%d", n)` becomes string concatenation with `toString n`. -/
def checkCompliance (vpc : PrismVPC) : List String :=
  if vpc.meta.origin.region ≠ "eu-west-1" then
    []
  else if vpc.isDefault then
    ["is Default VPC"]
  else
    let publicSubnets := Filter vpc.subnets (fun subnet => subnet.isPublic)
    let privateSubnets := Filter vpc.subnets (fun subnet => !subnet.isPublic)
    (if publicSubnets.length ≠ 3 then
      ["expected 3 public subnets, found " ++ toString publicSubnets.length]
    else []) ++
    (if privateSubnets.length ≠ 3 then
      ["expected 3 private subnets, found " ++ toString privateSubnets.length]
    else [])

/-- Embeds `reportCompliance` (src/main.go lines 136-144) as the list of
stdout lines it prints: the `Failed:` header, one tab-indented line per
violation, then the blank separator line from `fmt.Println()`. -/
def reportComplianceLines (vpc : PrismVPC) (errs : List String) : List String :=
  ("Failed: " ++ vpc.vpcID ++ " (" ++ vpc.meta.origin.region ++ ")")
    :: (errs.map (fun e => "\t" ++ e) ++ [""])

/-- Embeds one iteration of the per-VPC loop in `main` (src/main.go lines
68-77): skip on account mismatch, evaluate compliance, print the report
block only when there is at least one violation. -/
def vpcLoopStep (accountID : String) (vpc : PrismVPC) : List String :=
  if vpc.accountID ≠ accountID then
    []
  else
    let complianceErrs := checkCompliance vpc
    if complianceErrs.length > 0 then
      reportComplianceLines vpc complianceErrs
    else []

/-- Embeds the whole per-VPC loop of `main` as the concatenation of the
lines printed at each iteration, in order. -/
def vpcLoopLines (accountID : String) : List PrismVPC → List String
  | [] => []
  | vpc :: rest => vpcLoopStep accountID vpc ++ vpcLoopLines accountID rest

/-- Embeds the non-standard-region report of `main` (src/main.go lines
79-88): when the given list is non-empty, a header followed by one
tab-indented line per VPC showing its id and region. -/
def nonStandardReportLines (nonEuWest1 : List PrismVPC) : List String :=
  if nonEuWest1.length > 0 then
    "The following VPCs were ignored as are in non-standard regions:"
      :: nonEuWest1.map
        (fun vpc => "\t" ++ vpc.vpcID ++ " (" ++ vpc.meta.origin.region ++ ")")
  else []

/-- Embeds the pure tail of `main` (src/main.go lines 49-88) after the fetch
and decode have produced the VPC list: the missing-argument warning, the
per-VPC compliance loop over the account-filtered VPCs, then the
non-standard-region report. -/
def mainOutput (accountID : String) (vpcs : List PrismVPC) : List String :=
  (if accountID = "" then ["Missing required argument: accountID"] else []) ++
  (let accountVPCs := Filter vpcs (fun vpc => vpc.accountID == accountID)
   vpcLoopLines accountID accountVPCs ++
     nonStandardReportLines
       (Filter accountVPCs (fun vpc => vpc.meta.origin.region != "eu-west-1")))

/-- Outcome of the process: either a fatal abort via `log.Fatalf` (exit code
and diagnostic, nothing else printed by the compliance logic), or normal
completion with the list of stdout lines. -/
inductive ProcOutcome where
  | fatal (exitCode : Nat) (diagnostic : String)
  | normal (stdout : List String)
  deriving Repr, DecidableEq

/-- Embeds `main` from the point where the fetched body has been handed to
`json.Unmarshal` (src/main.go lines 60-90).  A decode error reaches
`check(err, "unable to unmarshal")` (lines 146-150), which calls
`log.Fatalf("%s: %v", msg, err)`: exit code 1 with the context message and
the underlying cause, and none of the compliance output is produced.  A
successful decode proceeds to the pure tail of `main`. -/
def runWithDecoded (accountID : String)
    (decoded : Except String PrismResponse) : ProcOutcome :=
  match decoded with
  | Except.error cause =>
    ProcOutcome.fatal 1 ("unable to unmarshal" ++ ": " ++ cause)
  | Except.ok prismResponse =>
    ProcOutcome.normal (mainOutput accountID prismResponse.data.vpcs)

/-! ### Helper lemmas about `Filter` -/

theorem Filter_eq_filter {A : Type} (items : List A) (pred : A → Bool) :
    Filter items pred = items.filter pred := by
  induction items with
  | nil => rfl
  | cons item rest ih =>
    by_cases h : pred item = true
    · simp [Filter, List.filter, h, ih]
    · simp [Filter, List.filter, h, ih]

theorem mem_Filter {A : Type} {items : List A} {pred : A → Bool} {a : A} :
    a ∈ Filter items pred ↔ a ∈ items ∧ pred a = true := by
  rw [Filter_eq_filter]
  exact List.mem_filter

theorem Filter_idem {A : Type} (items : List A) (pred : A → Bool) :
    Filter (Filter items pred) pred = Filter items pred := by
  induction items with
  | nil => rfl
  | cons item rest ih =>
    by_cases h : pred item = true
    · simp [Filter, h, ih]
    · simp [Filter, h, ih]

theorem Filter_length_split (subnets : List PrismSubnet) :
    (Filter subnets (fun s => s.isPublic)).length +
      (Filter subnets (fun s => !s.isPublic)).length = subnets.length := by
  induction subnets with
  | nil => rfl
  | cons subnet rest ih =>
    by_cases h : subnet.isPublic = true
    · simp [Filter, h]
      omega
    · simp [Filter, h]
      omega

/-! ### Shared facts about `checkCompliance` -/

theorem checkCompliance_nonCanonical (vpc : PrismVPC)
    (h : vpc.meta.origin.region ≠ "eu-west-1") : checkCompliance vpc = [] := by
  simp [checkCompliance, h]

theorem region_eq_of_violations (vpc : PrismVPC)
    (h : checkCompliance vpc ≠ []) : vpc.meta.origin.region = "eu-west-1" := by
  by_contra hne
  exact h (checkCompliance_nonCanonical vpc hne)

/-! ### Sample inventory values used by the witness theorems -/

def subnetPub : PrismSubnet :=
  { availabilityZone := "eu-west-1a"
    availableIPAddressCount := 250
    capacityIPAddressCount := 256
    cidrBlock := "10.0.0.0/24"
    ownerID := "111"
    state := "available"
    subnetArn := "arn:aws:ec2:eu-west-1:111:subnet/subnet-pub"
    subnetID := "subnet-pub"
    isPublic := true }

def subnetPriv : PrismSubnet :=
  { subnetPub with subnetID := "subnet-priv", isPublic := false }

def vpcEuNonDefault : PrismVPC :=
  { vpcID := "vpc-3"
    accountID := "111"
    state := "available"
    isDefault := false
    subnets := [subnetPub, subnetPub, subnetPriv, subnetPriv, subnetPriv]
    tags := []
    meta := { origin := { region := "eu-west-1" } } }

def vpcEuDefault : PrismVPC :=
  { vpcID := "vpc-2"
    accountID := "111"
    state := "available"
    isDefault := true
    subnets := [subnetPub]
    tags := []
    meta := { origin := { region := "eu-west-1" } } }

def vpcUsEast : PrismVPC :=
  { vpcID := "vpc-4"
    accountID := "111"
    state := "available"
    isDefault := true
    subnets := [subnetPub]
    tags := []
    meta := { origin := { region := "us-east-1" } } }

/-! ### Claim theorems -/

/-- C1: for every VPC in region "eu-west-1" with default-flag false,
`checkCompliance` returns exactly the public-count violation (when the
public-subnet count is not 3) followed by the private-count violation (when
the private-subnet count is not 3); hence the violation count is the sum of
the two indicator values, and the list is empty iff both counts equal 3.
Each message states the expected count 3 and the actual count found. -/
theorem checkCompliance_count_violations (vpc : PrismVPC)
    (hreg : vpc.meta.origin.region = "eu-west-1")
    (hdef : vpc.isDefault = false) :
    checkCompliance vpc =
      (if (Filter vpc.subnets (fun s => s.isPublic)).length ≠ 3 then
        ["expected 3 public subnets, found " ++
          toString (Filter vpc.subnets (fun s => s.isPublic)).length]
      else []) ++
      (if (Filter vpc.subnets (fun s => !s.isPublic)).length ≠ 3 then
        ["expected 3 private subnets, found " ++
          toString (Filter vpc.subnets (fun s => !s.isPublic)).length]
      else []) ∧
    (checkCompliance vpc).length =
      (if (Filter vpc.subnets (fun s => s.isPublic)).length ≠ 3 then 1 else 0) +
      (if (Filter vpc.subnets (fun s => !s.isPublic)).length ≠ 3 then 1 else 0) ∧
    (checkCompliance vpc = [] ↔
      (Filter vpc.subnets (fun s => s.isPublic)).length = 3 ∧
      (Filter vpc.subnets (fun s => !s.isPublic)).length = 3) := by
  have h1 : checkCompliance vpc =
      (if (Filter vpc.subnets (fun s => s.isPublic)).length ≠ 3 then
        ["expected 3 public subnets, found " ++
          toString (Filter vpc.subnets (fun s => s.isPublic)).length]
      else []) ++
      (if (Filter vpc.subnets (fun s => !s.isPublic)).length ≠ 3 then
        ["expected 3 private subnets, found " ++
          toString (Filter vpc.subnets (fun s => !s.isPublic)).length]
      else []) := by
    simp [checkCompliance, hreg, hdef]
  refine ⟨h1, ?_, ?_⟩
  · rw [h1]
    split <;> split <;> simp
  · rw [h1]
    split <;> split <;> simp_all

theorem checkCompliance_count_violations_witness :
    vpcEuNonDefault.meta.origin.region = "eu-west-1" ∧
    vpcEuNonDefault.isDefault = false ∧
    (checkCompliance vpcEuNonDefault).length =
      (if (Filter vpcEuNonDefault.subnets (fun s => s.isPublic)).length ≠ 3
        then 1 else 0) +
      (if (Filter vpcEuNonDefault.subnets (fun s => !s.isPublic)).length ≠ 3
        then 1 else 0) :=
  ⟨rfl, rfl, (checkCompliance_count_violations vpcEuNonDefault rfl rfl).2.1⟩

/-- C2: for every VPC whose origin region is not "eu-west-1",
`checkCompliance` returns the empty violation list, whatever the
default-flag and the subnets are. -/
theorem checkCompliance_ignores_other_regions (vpc : PrismVPC)
    (hreg : vpc.meta.origin.region ≠ "eu-west-1") :
    checkCompliance vpc = [] :=
  checkCompliance_nonCanonical vpc hreg

theorem checkCompliance_ignores_other_regions_witness :
    vpcUsEast.meta.origin.region ≠ "eu-west-1" ∧
    checkCompliance vpcUsEast = [] :=
  ⟨by decide, checkCompliance_ignores_other_regions vpcUsEast (by decide)⟩

/-- C3: for every VPC in region "eu-west-1" with default-flag true,
`checkCompliance` returns exactly the single violation "is Default VPC",
whatever the subnets are. -/
theorem checkCompliance_default_vpc (vpc : PrismVPC)
    (hreg : vpc.meta.origin.region = "eu-west-1")
    (hdef : vpc.isDefault = true) :
    checkCompliance vpc = ["is Default VPC"] := by
  simp [checkCompliance, hreg, hdef]

theorem checkCompliance_default_vpc_witness :
    vpcEuDefault.meta.origin.region = "eu-west-1" ∧
    vpcEuDefault.isDefault = true ∧
    checkCompliance vpcEuDefault = ["is Default VPC"] :=
  ⟨rfl, rfl, checkCompliance_default_vpc vpcEuDefault rfl rfl⟩

/-- C4: filtering a VPC sequence by an account identifier yields exactly the
order-preserving subsequence of VPCs whose account id equals the identifier
(soundness, subsequence, completeness), and the filter is idempotent. -/
theorem Filter_account_exact (vpcs : List PrismVPC) (x : String) :
    (∀ vpc ∈ Filter vpcs (fun v => v.accountID == x), vpc.accountID = x) ∧
    (Filter vpcs (fun v => v.accountID == x)).Sublist vpcs ∧
    (∀ vpc ∈ vpcs, vpc.accountID = x →
      vpc ∈ Filter vpcs (fun v => v.accountID == x)) ∧
    Filter (Filter vpcs (fun v => v.accountID == x)) (fun v => v.accountID == x)
      = Filter vpcs (fun v => v.accountID == x) := by
  refine ⟨?_, ?_, ?_, Filter_idem vpcs _⟩
  · intro vpc h
    have := (mem_Filter.mp h).2
    simpa using this
  · rw [Filter_eq_filter]
    exact List.filter_sublist vpcs
  · intro vpc hv he
    rw [mem_Filter]
    exact ⟨hv, by simp [he]⟩

/-- C5: over the account-filtered VPCs, the two region exclusions are
consistent: a VPC outside "eu-west-1" yields an empty Evaluator result and
contributes no lines (no "Failed" block) to the per-VPC loop, while the
non-standard-region report is empty exactly when no account-filtered VPC
lies outside "eu-west-1", and otherwise consists of the header followed by
one line per such VPC — in order, with its id and region — independent of
the Evaluator. -/
theorem region_reports_consistent (vpcs : List PrismVPC) (accountID : String) :
    (∀ vpc ∈ Filter vpcs (fun v => v.accountID == accountID),
      vpc.meta.origin.region ≠ "eu-west-1" →
        checkCompliance vpc = [] ∧ vpcLoopStep accountID vpc = []) ∧
    Filter (Filter vpcs (fun v => v.accountID == accountID))
        (fun v => v.meta.origin.region != "eu-west-1") =
      (Filter vpcs (fun v => v.accountID == accountID)).filter
        (fun v => v.meta.origin.region != "eu-west-1") ∧
    nonStandardReportLines
        (Filter (Filter vpcs (fun v => v.accountID == accountID))
          (fun v => v.meta.origin.region != "eu-west-1")) =
      (if ((Filter vpcs (fun v => v.accountID == accountID)).filter
            (fun v => v.meta.origin.region != "eu-west-1")) = [] then []
       else
        "The following VPCs were ignored as are in non-standard regions:"
          :: ((Filter vpcs (fun v => v.accountID == accountID)).filter
              (fun v => v.meta.origin.region != "eu-west-1")).map
            (fun vpc =>
              "\t" ++ vpc.vpcID ++ " (" ++ vpc.meta.origin.region ++ ")")) := by
  refine ⟨?_, Filter_eq_filter _ _, ?_⟩
  · intro vpc _ hne
    have hempty : checkCompliance vpc = [] := checkCompliance_nonCanonical vpc hne
    refine ⟨hempty, ?_⟩
    unfold vpcLoopStep
    split
    · rfl
    · simp [hempty]
  · rw [Filter_eq_filter]
    by_cases h :
        ((Filter vpcs (fun v => v.accountID == accountID)).filter
          (fun v => v.meta.origin.region != "eu-west-1")) = []
    · simp [nonStandardReportLines, h]
    · have hlen : 0 <
          ((Filter vpcs (fun v => v.accountID == accountID)).filter
            (fun v => v.meta.origin.region != "eu-west-1")).length :=
        List.length_pos.mpr h
      simp [nonStandardReportLines, h, hlen]

/-- C6: the public-flag partitions each VPC's subnets into two disjoint
groups whose sizes sum to the total subnet count. -/
theorem subnets_partitioned (vpc : PrismVPC) :
    (Filter vpc.subnets (fun s => s.isPublic)).length +
      (Filter vpc.subnets (fun s => !s.isPublic)).length =
        vpc.subnets.length ∧
    ∀ s : PrismSubnet,
      ¬(s ∈ Filter vpc.subnets (fun t => t.isPublic) ∧
        s ∈ Filter vpc.subnets (fun t => !t.isPublic)) := by
  refine ⟨Filter_length_split vpc.subnets, ?_⟩
  intro s hs
  rcases hs with ⟨h1, h2⟩
  have hp := (mem_Filter.mp h1).2
  have hq := (mem_Filter.mp h2).2
  simp [hp] at hq

/-- C7: with an absent (empty) account identifier the program warns
"Missing required argument: accountID" but does not abort, and when every
VPC in the inventory has a non-empty account id, the account filter with the
empty identifier matches no VPC, so the warning is the whole output. -/
theorem empty_accountID_warns_and_matches_nothing (vpcs : List PrismVPC)
    (hids : ∀ vpc ∈ vpcs, vpc.accountID ≠ "") :
    Filter vpcs (fun v => v.accountID == "") = [] ∧
    mainOutput "" vpcs = ["Missing required argument: accountID"] ∧
    ∀ prismResponse : PrismResponse, prismResponse.data.vpcs = vpcs →
      runWithDecoded "" (Except.ok prismResponse) =
        ProcOutcome.normal (mainOutput "" vpcs) := by
  have hnil : Filter vpcs (fun v => v.accountID == "") = [] := by
    rw [Filter_eq_filter]
    rw [List.filter_eq_nil_iff]
    intro vpc hv
    simpa using hids vpc hv
  refine ⟨hnil, ?_, ?_⟩
  · simp [mainOutput, hnil, vpcLoopLines, Filter, nonStandardReportLines]
  · intro prismResponse hresp
    simp [runWithDecoded, hresp]

theorem empty_accountID_warns_and_matches_nothing_witness :
    (∀ vpc ∈ [vpcEuDefault, vpcUsEast], vpc.accountID ≠ "") ∧
    mainOutput "" [vpcEuDefault, vpcUsEast] =
      ["Missing required argument: accountID"] :=
  ⟨by decide,
    (empty_accountID_warns_and_matches_nothing [vpcEuDefault, vpcUsEast]
      (by decide)).2.1⟩

/-- C8: a decode failure is fatal: the process stops with exit code 1
(non-zero), the diagnostic is the context message "unable to unmarshal"
followed by the underlying cause, and no compliance output is produced. -/
theorem decode_failure_fatal (accountID cause : String) :
    ∃ code diagnostic,
      runWithDecoded accountID (Except.error cause) =
        ProcOutcome.fatal code diagnostic ∧
      code ≠ 0 ∧
      diagnostic = "unable to unmarshal" ++ ": " ++ cause ∧
      ∀ stdout, runWithDecoded accountID (Except.error cause) ≠
        ProcOutcome.normal stdout := by
  refine ⟨1, "unable to unmarshal" ++ ": " ++ cause, rfl, one_ne_zero, rfl, ?_⟩
  intro stdout h
  exact ProcOutcome.noConfusion h

/-- C9: for every VPC whatsoever, `checkCompliance` returns at most two
violations. -/
theorem checkCompliance_at_most_two (vpc : PrismVPC) :
    (checkCompliance vpc).length ≤ 2 := by
  simp only [checkCompliance]
  split
  · simp
  · split
    · simp
    · split <;> split <;> simp

/-- C10: a non-empty Evaluator result forces the VPC's origin region to be
"eu-west-1", so every "Failed" header printed by `reportCompliance` carries
the canonical region literal. -/
theorem failed_header_canonical_region (vpc : PrismVPC)
    (h : checkCompliance vpc ≠ []) :
    vpc.meta.origin.region = "eu-west-1" ∧
    (reportComplianceLines vpc (checkCompliance vpc)).head? =
      some ("Failed: " ++ vpc.vpcID ++ " (" ++ "eu-west-1" ++ ")") := by
  have hreg := region_eq_of_violations vpc h
  exact ⟨hreg, by simp [reportComplianceLines, hreg]⟩

theorem failed_header_canonical_region_witness :
    checkCompliance vpcEuDefault ≠ [] ∧
    (reportComplianceLines vpcEuDefault (checkCompliance vpcEuDefault)).head? =
      some ("Failed: " ++ vpcEuDefault.vpcID ++ " (" ++ "eu-west-1" ++ ")") :=
  ⟨by decide,
    (failed_header_canonical_region vpcEuDefault (by decide)).2⟩

end VpcNag
